import Mathlib

/-!
Shallow embedding of `src/lib/SocketTransport.js` (esdf-ws-client).

The supervisor ("SocketTransport") is a state machine driven by discrete
events: user commands (`start`, `stop`, `send`), callbacks fired by the
underlying socket (`open`, `error`, `close`, `message`), and the firing of a
scheduled reconnection timer.  All state mutation in the source happens
synchronously inside one of those handlers, so the embedding is a pure step
function on an explicit state record.

Environment modelling:
* Sockets are identified by a fresh `Nat` id allocated by `_connect`
  (`new SocketConstructor(...)`); the id counter lives in the state.
* Listener bookkeeping: `addEventListener` appends a `(socketId, kind)` pair
  to `attached`; `removeEventListener` / `removeListener` erases one such
  pair.  A socket callback is delivered to the supervisor exactly when the
  corresponding listener is currently attached to that socket — this mirrors
  the fact that the JS handlers only run while registered.
* Timers: `setTimeout` allocates a fresh timer id, records it as pending and
  stores it in `reconnectTimeout`; `clearTimeout` removes the stored id from
  the pending set.  A timer-fire event is deliverable exactly when its id is
  still pending, and firing removes it from the pending set before running
  the callback.
* The socket's `readyState` property is an environment-supplied value: a
  `send` call carries the value the current socket would report at that
  moment.  Message payloads are modelled as `Nat`.
-/

namespace ESDF

/-- The four values of `this._state` (the `states` array in the source). -/
inductive ConnState where
  | unconnected
  | connecting
  | connected
  | retrying
deriving DecidableEq, Repr

/-- The four standard listeners stored in `this._standardListeners`. -/
inductive ListenerKind where
  | lopen
  | lerror
  | lclose
  | lmessage
deriving DecidableEq, Repr

/-- Notifications emitted via `this.emit(...)` on the EventEmitter surface. -/
inductive Notif where
  | connect
  | disconnect
  | message (data : Nat)
  | error
  | send (data : Nat)
deriving DecidableEq, Repr

/-- The mutable fields of a `SocketTransport` instance together with the
environment bookkeeping (listener registrations, pending timers, fresh-id
counters) needed to decide which callbacks can be delivered. -/
structure TransportState where
  /-- `this._state` -/
  state : ConnState
  /-- `this._socket` (socket identity; `none` = JS `null`) -/
  socket : Option Nat
  /-- `this._active` -/
  active : Bool
  /-- `this._reconnectTimeout` (stored timer handle; `none` = JS `null`) -/
  reconnectTimeout : Option Nat
  /-- listener registrations currently present on socket objects -/
  attached : List (Nat × ListenerKind)
  /-- timer ids scheduled by `setTimeout` and not yet fired or cleared -/
  pendingTimers : List Nat
  /-- fresh-id counter for socket objects -/
  nextSocketId : Nat
  /-- fresh-id counter for timer handles -/
  nextTimerId : Nat
deriving DecidableEq, Repr

namespace SocketTransport

/-- `SocketTransport.prototype._setup`: attach the four standard listeners to
`this._socket`.  (In the source this is only ever called right after
`_connect` assigns a fresh socket, so the `none` branch is unreachable.) -/
def setup (s : TransportState) : TransportState :=
  match s.socket with
  | none => s
  | some sid =>
    { s with attached := s.attached ++
        [(sid, ListenerKind.lopen), (sid, ListenerKind.lerror),
         (sid, ListenerKind.lclose), (sid, ListenerKind.lmessage)] }

/-- `SocketTransport.prototype._connect`: create a fresh socket for the URL
and attach listeners.  Note: it does not touch `this._state`. -/
def connect (s : TransportState) : TransportState :=
  setup { s with socket := some s.nextSocketId,
                 nextSocketId := s.nextSocketId + 1 }

/-- `SocketTransport.prototype._teardown`: remove the four standard listeners
from `this._socket`; guard clause: no-op when `this._socket` is absent. -/
def teardown (s : TransportState) : TransportState :=
  match s.socket with
  | none => s
  | some sid =>
    { s with attached :=
        ((((s.attached.erase (sid, ListenerKind.lopen)).erase
            (sid, ListenerKind.lerror)).erase
            (sid, ListenerKind.lclose)).erase
            (sid, ListenerKind.lmessage)) }

/-- `SocketTransport.prototype._disconnect`: clear the reconnection timeout
if any, close the socket (close-time errors are swallowed, so closing changes
no supervisor field), then null the socket reference.  The
`this._handleDisconnect()` call present in the source is commented out, so
neither `_state` nor the listener registrations are touched here. -/
def disconnect (s : TransportState) : TransportState :=
  let s1 :=
    match s.reconnectTimeout with
    | some h => { s with pendingTimers := s.pendingTimers.erase h,
                         reconnectTimeout := none }
    | none => s
  { s1 with socket := none }

/-- `SocketTransport.prototype._retryConnection`: when not already in the
`retrying` state, enter it and schedule a one-shot reconnection timer
(`setTimeout(..., 2000)`), storing its handle; otherwise do nothing. -/
def retryConnection (s : TransportState) : TransportState :=
  if s.state ≠ ConnState.retrying then
    { s with state := ConnState.retrying,
             reconnectTimeout := some s.nextTimerId,
             pendingTimers := s.nextTimerId :: s.pendingTimers,
             nextTimerId := s.nextTimerId + 1 }
  else s

/-- `SocketTransport.prototype._handleOpen`: unconditionally set the state to
`connected` and emit a `connect` notification. -/
def handleOpen (s : TransportState) : TransportState × List Notif :=
  ({ s with state := ConnState.connected }, [Notif.connect])

/-- `SocketTransport.prototype._handleDisconnect`: remember the state at
disconnect time, reset the state to `unconnected`, tear listeners down, retry
when active, and emit `disconnect` iff the remembered state was `connected`. -/
def handleDisconnect (s : TransportState) : TransportState × List Notif :=
  let stateAtDisconnectTime := s.state
  let s1 := teardown { s with state := ConnState.unconnected }
  let s2 := if s1.active then retryConnection s1 else s1
  (s2, if stateAtDisconnectTime = ConnState.connected then [Notif.disconnect] else [])

/-- `SocketTransport.prototype._handleError`: emit `error`, then run
disconnect handling. -/
def handleError (s : TransportState) : TransportState × List Notif :=
  let r := handleDisconnect s
  (r.1, Notif.error :: r.2)

/-- The callback passed to `setTimeout` in `_retryConnection`: null the
stored handle, set the state to `connecting`, and attempt a new connection. -/
def reconnectTimeoutFired (s : TransportState) : TransportState :=
  connect { s with reconnectTimeout := none, state := ConnState.connecting }

/-- `SocketTransport.prototype.start`: when inactive, become active and
attempt a connection; otherwise a no-op. -/
def start (s : TransportState) : TransportState :=
  if s.active then s else connect { s with active := true }

/-- `SocketTransport.prototype.stop`: when active, become inactive and run
`_disconnect`; otherwise a no-op. -/
def stop (s : TransportState) : TransportState :=
  if s.active then disconnect { s with active := false } else s

/-- What a `send` call can produce, mirroring the source's error paths.
`stateErr` is a `SocketTransportStateError` whose `data` carries the logical
state and the observed `readyState` (`none` = JS `null`).  `typeErr` is the
raw `TypeError` that escapes when `this._socket` is `null` in the `catch`
block (reading `.readyState` of `null`). -/
inductive SendResult where
  | ok
  | stateErr (state : ConnState) (readyState : Option Nat)
  | typeErr
deriving DecidableEq, Repr

/-- Everything observable about one `send` call: the post-call supervisor
state, the notifications emitted, the result (normal return or raised error),
and whether the underlying `this._socket.send` was actually invoked. -/
structure SendOutcome where
  post : TransportState
  out : List Notif
  result : SendResult
  transmitted : Bool
deriving DecidableEq, Repr

/-- `SocketTransport.prototype.send`.  `rs` is the value the current socket's
`readyState` property reports during this call; `underlyingSendFails` is the
environment's choice of whether `this._socket.send(message)` throws. -/
def send (s : TransportState) (message : Nat) (rs : Nat)
    (underlyingSendFails : Bool) : SendOutcome :=
  if s.state ≠ ConnState.connected then
    -- `readyState = this._socket ? this._socket.readyState : null`
    { post := s, out := [],
      result := SendResult.stateErr s.state (s.socket.map fun _ => rs),
      transmitted := false }
  else
    -- try { this.emit('send', message); this._socket.send(message); }
    match s.socket with
    | none =>
      -- `this._socket.send` throws a TypeError; the catch block then reads
      -- `this._socket.readyState` on `null`, so a TypeError propagates.
      { post := s, out := [Notif.send message],
        result := SendResult.typeErr, transmitted := false }
    | some _ =>
      if underlyingSendFails then
        { post := s, out := [Notif.send message],
          result := SendResult.stateErr s.state (some rs),
          transmitted := true }
      else
        { post := s, out := [Notif.send message],
          result := SendResult.ok, transmitted := true }

end SocketTransport

/-- The discrete events the supervisor can react to: the public operations,
callbacks from a socket object (identified by id), and a timer firing. -/
inductive Ev where
  | start
  | stop
  | socketOpen (sid : Nat)
  | socketError (sid : Nat)
  | socketClose (sid : Nat)
  | socketMessage (sid : Nat) (data : Nat)
  | timerFire (tid : Nat)
  | sendMsg (message : Nat) (rs : Nat) (underlyingSendFails : Bool)
deriving DecidableEq, Repr

/-- One step of the supervisor: deliver an event and collect the emitted
notifications.  A socket callback runs only when the corresponding listener
is attached to that socket; a timer fires only while still pending (a cleared
timer never fires), and firing consumes it. -/
def step (s : TransportState) (e : Ev) : TransportState × List Notif :=
  match e with
  | Ev.start => (SocketTransport.start s, [])
  | Ev.stop => (SocketTransport.stop s, [])
  | Ev.socketOpen sid =>
    if (sid, ListenerKind.lopen) ∈ s.attached then SocketTransport.handleOpen s
    else (s, [])
  | Ev.socketError sid =>
    if (sid, ListenerKind.lerror) ∈ s.attached then SocketTransport.handleError s
    else (s, [])
  | Ev.socketClose sid =>
    if (sid, ListenerKind.lclose) ∈ s.attached then SocketTransport.handleDisconnect s
    else (s, [])
  | Ev.socketMessage sid d =>
    -- the stored message listener: `self.emit('message', messageEvent.data)`
    if (sid, ListenerKind.lmessage) ∈ s.attached then (s, [Notif.message d])
    else (s, [])
  | Ev.timerFire tid =>
    if tid ∈ s.pendingTimers then
      (SocketTransport.reconnectTimeoutFired
        { s with pendingTimers := s.pendingTimers.erase tid }, [])
    else (s, [])
  | Ev.sendMsg m rs f =>
    let o := SocketTransport.send s m rs f
    (o.post, o.out)

/-- The state of a freshly constructed transport (constructor body). -/
def init : TransportState :=
  { state := ConnState.unconnected, socket := none, active := false,
    reconnectTimeout := none, attached := [], pendingTimers := [],
    nextSocketId := 0, nextTimerId := 0 }

/-- Run a sequence of events, accumulating emitted notifications. -/
def run (s : TransportState) : List Ev → TransportState × List Notif
  | [] => (s, [])
  | e :: es =>
    let r := step s e
    let r2 := run r.1 es
    (r2.1, r.2 ++ r2.2)

/-- Number of occurrences of a given notification in an emission list. -/
def countNotif (n : Notif) : List Notif → Nat
  | [] => 0
  | x :: xs => (if x = n then 1 else 0) + countNotif n xs

/-- An event triggers `_handleDisconnect` exactly when it is a close or error
callback delivered to a currently attached listener. -/
def runsDisconnectHandling (s : TransportState) : Ev → Bool
  | Ev.socketError sid => decide ((sid, ListenerKind.lerror) ∈ s.attached)
  | Ev.socketClose sid => decide ((sid, ListenerKind.lclose) ∈ s.attached)
  | _ => false

end ESDF

namespace ESDF

/- Helper: a `send` call emits either nothing or exactly the single `send`
notification from the try block. -/
theorem send_out_cases (s : TransportState) (m rs : Nat) (f : Bool) :
    (SocketTransport.send s m rs f).out = []
      ∨ (SocketTransport.send s m rs f).out = [Notif.send m] := by
  unfold SocketTransport.send
  split
  · exact Or.inl rfl
  · split
    · exact Or.inr rfl
    · split
      · exact Or.inr rfl
      · exact Or.inr rfl

/-- C1: for every supervisor state whose logical state is not `connected`,
`send` raises a `SocketTransportStateError` whose data carries that logical
state and the socket's readiness indicator (`none` when no socket reference
exists), no `send` notification is emitted, and the underlying transmit is
never attempted. -/
theorem send_outside_connected_raises_state_error (s : TransportState)
    (m rs : Nat) (f : Bool) (h : s.state ≠ ConnState.connected) :
    (SocketTransport.send s m rs f).result
        = SocketTransport.SendResult.stateErr s.state (s.socket.map fun _ => rs)
      ∧ (SocketTransport.send s m rs f).transmitted = false
      ∧ (SocketTransport.send s m rs f).out = [] := by
  simp [SocketTransport.send, h]

/-- Witness for C1 at the freshly constructed (unconnected) transport. -/
theorem send_outside_connected_raises_state_error_w :
    init.state ≠ ConnState.connected
      ∧ ((SocketTransport.send init 5 3 false).result
            = SocketTransport.SendResult.stateErr init.state (init.socket.map fun _ => 3)
          ∧ (SocketTransport.send init 5 3 false).transmitted = false
          ∧ (SocketTransport.send init 5 3 false).out = []) :=
  ⟨by decide, send_outside_connected_raises_state_error init 5 3 false (by decide)⟩

/-- C2 (code bug): `start()` calls `_connect()` without ever assigning
`this._state`, so immediately after `start()` on a fresh transport a live
socket exists while the state is still `unconnected` — contradicting the
source's own description of `unconnected` ("no attempt to connect has been
made"; the retry path does set the state before `_connect`). -/
theorem start_creates_socket_in_unconnected_state :
    (run init [Ev.start]).1.socket = some 0
      ∧ (run init [Ev.start]).1.state = ConnState.unconnected := by
  decide

/-- C3 (code bug): `stop()` while connected clears the timer, closes the
socket, drops the reference and marks inactive, but never resets
`this._state` (the `_handleDisconnect()` call in `_disconnect` is commented
out), so the state remains `connected` with no socket. -/
theorem stop_does_not_reset_state :
    (run init [Ev.start, Ev.socketOpen 0, Ev.stop]).1.state = ConnState.connected
      ∧ (run init [Ev.start, Ev.socketOpen 0, Ev.stop]).1.socket = none
      ∧ (run init [Ev.start, Ev.socketOpen 0, Ev.stop]).1.active = false
      ∧ (run init [Ev.start, Ev.socketOpen 0, Ev.stop]).1.reconnectTimeout = none := by
  decide

/-- C4 (code bug): the `stop()` path never runs `_teardown` (and nulls
`this._socket`, so any later `_teardown` no-ops on its guard clause); after
`stop()` then `start()` all four listeners attached to the previous socket
(id 0) are still attached while the fresh socket (id 1) is current —
contradicting `_setup`'s own comment that listener references are stored so
they can be removed to avoid a leak. -/
theorem stop_then_start_leaks_old_listeners :
    (run init [Ev.start, Ev.stop, Ev.start]).1.socket = some 1
      ∧ (0, ListenerKind.lopen) ∈ (run init [Ev.start, Ev.stop, Ev.start]).1.attached
      ∧ (0, ListenerKind.lerror) ∈ (run init [Ev.start, Ev.stop, Ev.start]).1.attached
      ∧ (0, ListenerKind.lclose) ∈ (run init [Ev.start, Ev.stop, Ev.start]).1.attached
      ∧ (0, ListenerKind.lmessage) ∈ (run init [Ev.start, Ev.stop, Ev.start]).1.attached := by
  decide

/-- C5: a `disconnect` notification is emitted by a step exactly when the
event triggers disconnect handling (a close or error callback delivered to an
attached listener) while the prior logical state was `connected`, and then
exactly one is emitted. -/
theorem disconnect_emitted_iff_handling_while_connected
    (s : TransportState) (e : Ev) :
    countNotif Notif.disconnect (step s e).2
      = if runsDisconnectHandling s e = true ∧ s.state = ConnState.connected
        then 1 else 0 := by
  cases e with
  | start => simp [step, runsDisconnectHandling, countNotif]
  | stop => simp [step, runsDisconnectHandling, countNotif]
  | socketOpen sid =>
    by_cases hm : (sid, ListenerKind.lopen) ∈ s.attached <;>
      simp [step, hm, SocketTransport.handleOpen, runsDisconnectHandling, countNotif]
  | socketError sid =>
    by_cases hm : (sid, ListenerKind.lerror) ∈ s.attached <;>
      by_cases hs : s.state = ConnState.connected <;>
        simp [step, hm, hs, SocketTransport.handleError,
          SocketTransport.handleDisconnect, runsDisconnectHandling, countNotif]
  | socketClose sid =>
    by_cases hm : (sid, ListenerKind.lclose) ∈ s.attached <;>
      by_cases hs : s.state = ConnState.connected <;>
        simp [step, hm, hs, SocketTransport.handleDisconnect,
          runsDisconnectHandling, countNotif]
  | socketMessage sid d =>
    by_cases hm : (sid, ListenerKind.lmessage) ∈ s.attached <;>
      simp [step, hm, runsDisconnectHandling, countNotif]
  | timerFire tid =>
    by_cases hm : tid ∈ s.pendingTimers <;>
      simp [step, hm, runsDisconnectHandling, countNotif]
  | sendMsg m rs f =>
    rcases send_out_cases s m rs f with h | h <;>
      simp [step, h, runsDisconnectHandling, countNotif]

/-- C6 (code bug): after an unplanned disconnect while active, a second
failure event delivered before the timer fires can schedule a second timer:
`_handleDisconnect` resets the state to `unconnected` before calling
`_retryConnection`, so the already-`retrying` guard never takes effect, and
the stale socket's listeners leaked by `stop()` deliver the second failure.
After `start; open 0; stop; start; error 1` exactly one timer (id 0) is
pending in state `retrying`; the late `close 0` then leaves two timers
pending. -/
theorem second_failure_while_retrying_schedules_second_timer :
    (run init [Ev.start, Ev.socketOpen 0, Ev.stop, Ev.start,
        Ev.socketError 1]).1.state = ConnState.retrying
      ∧ (run init [Ev.start, Ev.socketOpen 0, Ev.stop, Ev.start,
          Ev.socketError 1]).1.pendingTimers = [0]
      ∧ (run init [Ev.start, Ev.socketOpen 0, Ev.stop, Ev.start,
          Ev.socketError 1, Ev.socketClose 0]).1.pendingTimers = [1, 0] := by
  decide

/-- C7 (code bug): `stop()` during `retrying` clears `this._reconnectTimeout`
but never resets `this._state`, leaving a state where the handle is `none`
while the logical state is still `retrying` — refuting the claimed
"non-null iff retrying" equivalence. -/
theorem stop_while_retrying_clears_handle_but_not_state :
    (run init [Ev.start, Ev.socketError 0, Ev.stop]).1.state = ConnState.retrying
      ∧ (run init [Ev.start, Ev.socketError 0, Ev.stop]).1.reconnectTimeout = none := by
  decide

/-- C8 (code bug): because `stop()` leaves the state at `connected`, after
`start; open 0; stop; start` the state is already `connected`, yet the fresh
socket's open event still emits a `connect` notification (and the whole trace
emits two), so a `connect` is emitted on a step that is not a transition into
`connected`. -/
theorem open_after_restart_emits_connect_without_transition :
    (run init [Ev.start, Ev.socketOpen 0, Ev.stop, Ev.start]).1.state
        = ConnState.connected
      ∧ countNotif Notif.connect
          (step (run init [Ev.start, Ev.socketOpen 0, Ev.stop, Ev.start]).1
            (Ev.socketOpen 1)).2 = 1
      ∧ countNotif Notif.connect
          (run init [Ev.start, Ev.socketOpen 0, Ev.stop, Ev.start,
            Ev.socketOpen 1]).2 = 2 := by
  decide

/-- C9: a `message` callback carrying payload `d`, delivered to an attached
message listener, makes the step emit exactly the one-element notification
list `[message d]` — one notification, payload unmodified. -/
theorem message_delivered_once_unmodified (s : TransportState) (sid d : Nat)
    (h : (sid, ListenerKind.lmessage) ∈ s.attached) :
    (step s (Ev.socketMessage sid d)).2 = [Notif.message d] := by
  simp [step, h]

/-- Witness for C9 on the socket created by `start()`. -/
theorem message_delivered_once_unmodified_w :
    (0, ListenerKind.lmessage) ∈ (run init [Ev.start]).1.attached
      ∧ (step (run init [Ev.start]).1 (Ev.socketMessage 0 42)).2
          = [Notif.message 42] :=
  ⟨by decide, message_delivered_once_unmodified (run init [Ev.start]).1 0 42 (by decide)⟩

/-- C10: a `send` step never changes any supervisor state field, whether it
returns normally or raises — the source's `send` only reads `this._state` and
`this._socket` and assigns no instance field. -/
theorem send_preserves_all_state_fields (s : TransportState) (m rs : Nat)
    (f : Bool) :
    (step s (Ev.sendMsg m rs f)).1 = s := by
  show (SocketTransport.send s m rs f).post = s
  unfold SocketTransport.send
  split
  · rfl
  · split
    · rfl
    · split <;> rfl

end ESDF
